import Mathlib

/-!
Shallow embedding of the bgfx-test window-lifecycle program
(src/main.rs, src/application.rs, src/window.rs, src/error.rs).

External collaborators (glfw, raw-window-handle, bgfx) are modelled by
their data surface only: event values, native-handle variants, and the
backend call trace that the program emits.  Machine integers are
modelled as Nat (u32, u16) and Int (i32), with the Rust `as` casts made
explicit as reductions modulo 2^32 / 2^16.
-/

namespace BgfxTest

/-- Error taxonomy of src/error.rs: the three initialization failure kinds
Glfw, Window and Bgfx. -/
inductive InitializationError
  | glfw
  | window
  | bgfx
deriving DecidableEq, Repr

/-- Top-level error of src/error.rs: wraps an `InitializationError`
(the `#[from]` conversion used by the `?` operator in main). -/
inductive Error
  | initialization (e : InitializationError)
deriving DecidableEq, Repr

/-- Keyboard keys of the glfw collaborator, reduced to the one key the
program inspects (Escape) plus an opaque remainder. -/
inductive Key
  | escape
  | other (code : Nat)
deriving DecidableEq, Repr

/-- Key actions of the glfw collaborator: Press, Release, Repeat. -/
inductive Action
  | press
  | release
  | rep
deriving DecidableEq, Repr

/-- Window events delivered by the glfw collaborator: a key event carries
a key, scancode, action and modifier bits; every other event kind is an
opaque tag (the program only logs them). -/
inductive WindowEvent
  | key (k : Key) (scancode : Int) (action : Action) (mods : Nat)
  | other (tag : Nat)
deriving DecidableEq, Repr

/-- Native handle variants of the raw-window-handle collaborator.
Pointers and ids are modelled as Nat.  The first four variants are the
ones the program's match recognizes; xcb, web and android stand for the
remaining variants that fall into the wildcard arm. -/
inductive RawWindowHandle
  | xlib (window : Nat) (display : Nat)
  | wayland (surface : Nat) (display : Nat)
  | macOS (ns_window : Nat)
  | win32 (hwnd : Nat)
  | xcb (window : Nat) (connection : Nat)
  | web (id : Nat)
  | android (native_window : Nat)
deriving DecidableEq, Repr

/-- The bgfx `PlatformData` struct: native window handle `nwh` and native
display type `ndt`, both opaque pointers modelled as Nat (0 = null). -/
structure PlatformData where
  nwh : Nat
  ndt : Nat
deriving DecidableEq, Repr

/-- `PlatformData::new()`: both pointers null. -/
def PlatformData.new : PlatformData := { nwh := 0, ndt := 0 }

/-- Renderer types the program selects from (bgfx `RendererType`);
`count` is the library's auto-select default. -/
inductive RendererType
  | vulkan
  | metal
  | count
deriving DecidableEq, Repr

/-- Resolution part of the bgfx `Init` struct: width, height and reset
flag bits, all u32. -/
structure Resolution where
  width : Nat
  height : Nat
  reset : Nat
deriving DecidableEq, Repr

/-- The bgfx `Init` struct, restricted to the fields the program writes. -/
structure Init where
  type_r : RendererType
  resolution : Resolution
  platform_data : PlatformData
deriving DecidableEq, Repr

/-- Bit value of the external bgfx constant `ResetFlags::VSYNC`. -/
def ResetFlags.VSYNC : Nat := 0x80

/-- Bit value of the external bgfx constant `DebugFlags::TEXT`
(used by main's configuration). -/
def DebugFlags.TEXT : Nat := 0x08

/-- `Init::new()`: library defaults; every field relevant to the claims
is overwritten by the program before use. -/
def Init.new : Init :=
  { type_r := RendererType.count
    resolution := { width := 1280, height := 720, reset := 0 }
    platform_data := PlatformData.new }

/-- Rust `i32 as u32` cast: two's-complement wrap, i.e. reduction of the
integer modulo 2^32. -/
def u32_of_i32 (x : Int) : Nat := (x % (2 ^ 32 : Int)).toNat

/-- Rust `i32 as u16` cast (used by `set_view_rect` in window.rs). -/
def u16_of_i32 (x : Int) : Nat := (x % (2 ^ 16 : Int)).toNat

/-- Componentwise `i32 as u32` on a framebuffer-size pair
(src/main.rs line 57). -/
def u32_pair (p : Int × Int) : Nat × Nat := (u32_of_i32 p.1, u32_of_i32 p.2)

/-- One backend call, as observed at the bgfx collaborator boundary. -/
inductive Call
  | initBackend (params : Init)
  | setDebug (flags : Nat)
  | setViewClear
  | reset (width height : Nat)
  | setViewRect (width height : Nat)
  | touch
  | dbgTextClear
  | dbgText (x y : Nat)
  | frame
  | shutdown
deriving DecidableEq, Repr

/-- True exactly on `reset` calls. -/
def Call.isReset : Call → Bool
  | Call.reset _ _ => true
  | _ => false

/-- True exactly on `frame` calls. -/
def Call.isFrame : Call → Bool
  | Call.frame => true
  | _ => false

/-- True on the calls a loop-body tick can emit (reset, view rect, touch,
debug text, frame) — used to show a tick never emits init or shutdown. -/
def Call.isLoopCall : Call → Bool
  | Call.reset _ _ => true
  | Call.setViewRect _ _ => true
  | Call.touch => true
  | Call.dbgTextClear => true
  | Call.dbgText _ _ => true
  | Call.frame => true
  | _ => false

/-- Display mode of glfw's `WindowMode` (monitor pointer elided). -/
inductive WindowMode
  | windowed
  | fullScreen
deriving DecidableEq, Repr

/-- `WindowMetadata` (identical in src/application.rs and src/window.rs):
immutable creation parameters. -/
structure WindowMetadata where
  title : String
  width : Nat
  height : Nat
  mode : WindowMode
  debug_flags : Nat
deriving DecidableEq, Repr

/-- The `Application` struct of src/application.rs, reduced to the state
the program reads and writes: the window's close-requested flag, the
stored size (u32 pair), the window's native handle, and the debug flags.
The glfw context and event stream are modelled at the call sites that
use them (`handle_events` takes the pending event queue as input). -/
structure Application where
  window_shouldClose : Bool
  size : Nat × Nat
  raw_handle : RawWindowHandle
  debug_flags : Nat
deriving DecidableEq, Repr

/-- `Application::try_new` (src/application.rs lines 61-82): glfw init may
fail (Glfw error), window creation may fail (Window error); on success the
stored size is the creation-time (width, height) and the close flag is
unset.  The outcomes of the two external calls are inputs `glfwOk`,
`windowOk`; the window's native handle is input `handle`. -/
def Application.try_new (glfwOk windowOk : Bool) (metadata : WindowMetadata)
    (handle : RawWindowHandle) : Except InitializationError Application :=
  match glfwOk with
  | false => Except.error InitializationError.glfw
  | true =>
    match windowOk with
    | false => Except.error InitializationError.window
    | true =>
      Except.ok
        { window_shouldClose := false
          size := (metadata.width, metadata.height)
          raw_handle := handle
          debug_flags := metadata.debug_flags }

/-- `get_platform_data` (src/application.rs lines 125-165, and the
textually identical copy in src/window.rs lines 171-211): maps the native
handle to the bgfx `PlatformData`.  Xlib: nwh = window id, ndt = display;
Wayland: nwh = display, ndt = surface; macOS: nwh = ns_window; Win32:
nwh = hwnd.  The wildcard arm aborts the process (Rust panic
"Unsupported Window Manager"), modelled as `none`. -/
def get_platform_data (handle : RawWindowHandle) : Option PlatformData :=
  let pd := PlatformData.new
  match handle with
  | RawWindowHandle.xlib window display => some { pd with nwh := window, ndt := display }
  | RawWindowHandle.wayland surface display => some { pd with ndt := surface, nwh := display }
  | RawWindowHandle.macOS ns_window => some { pd with nwh := ns_window }
  | RawWindowHandle.win32 hwnd => some { pd with nwh := hwnd }
  | _ => none

/-- True on the four handle variants the program's match recognizes. -/
def RawWindowHandle.isSupported : RawWindowHandle → Bool
  | RawWindowHandle.xlib _ _ => true
  | RawWindowHandle.wayland _ _ => true
  | RawWindowHandle.macOS _ => true
  | RawWindowHandle.win32 _ => true
  | _ => false

/-- `get_render_type` (identical in both files): Vulkan on the
Linux/Windows build this embedding models (Metal on macOS builds). -/
def get_render_type : RendererType := RendererType.vulkan

/-- The `Init` struct built by `Application::init` (src/application.rs
lines 85-90): note the source assigns `resolution.height = self.size.0`
(the stored width) and `resolution.width = self.size.1` (the stored
height), reset = VSYNC; `none` when `get_platform_data` aborts. -/
def Application.initParams (app : Application) : Option Init :=
  (get_platform_data app.raw_handle).map fun pd =>
    { Init.new with
        type_r := get_render_type
        resolution := { width := app.size.2, height := app.size.1, reset := ResetFlags.VSYNC }
        platform_data := pd }

/-- `Application::init` (src/application.rs lines 84-97): builds the init
params (which may abort in `get_platform_data`, hence `none`), then calls
the backend's `init`; if that external call fails (input `bgfxOk` false)
returns the Bgfx error, else Ok.  The emitted backend-call trace is the
single `initBackend` call. -/
def Application.init (app : Application) (bgfxOk : Bool) :
    Option (Except InitializationError Unit × List Call) :=
  (Application.initParams app).map fun params =>
    match bgfxOk with
    | false => (Except.error InitializationError.bgfx, [Call.initBackend params])
    | true => (Except.ok (), [Call.initBackend params])

/-- True exactly on a key-press of the escape key, the pattern matched by
`handle_events` in both files. -/
def isEscapePress : WindowEvent → Bool
  | WindowEvent.key Key.escape _ Action.press _ => true
  | _ => false

/-- `Application::handle_events` (src/application.rs lines 108-116, and
the identical copy in src/window.rs lines 154-162): drains the queued
events in order, logging each; on a key-press of Escape it sets the
window's close-requested flag.  Returns the new state and the list of
logged events. -/
def Application.handle_events (app : Application) (events : List WindowEvent) :
    Application × List WindowEvent :=
  (events.foldl
    (fun a e => if isEscapePress e then { a with window_shouldClose := true } else a)
    app,
   events)

/-- The resize-gate step inlined in the per-frame loop (src/main.rs lines
59-62): if the stored size differs from the sampled size, issue a reset
(true) and store the sampled size; otherwise do nothing (false). -/
def observe (last cur : Nat × Nat) : (Nat × Nat) × Bool :=
  if last ≠ cur then (cur, true) else (last, false)

/-- Iterated `observe`: the boolean each tick of a sequence of sampled
sizes would return, threading the stored size. -/
def observeSeq (st : Nat × Nat) : List (Nat × Nat) → List Bool
  | [] => []
  | s :: rest => (observe st s).2 :: observeSeq (observe st s).1 rest

/-- Per-tick inputs sampled from the outside world: the pending window
events and the framebuffer size (i32 pair) reported by glfw. -/
structure TickInput where
  events : List WindowEvent
  framebuffer_size : Int × Int
deriving DecidableEq, Repr

/-- `tick` (src/main.rs lines 49-80): pump events, sample the framebuffer
size and cast it to u32, run the resize gate (reset iff the size
changed), then view rect (u16 casts), touch, debug text, and one frame
submission.  Returns the new state and the backend calls emitted. -/
def tick (app : Application) (input : TickInput) : Application × List Call :=
  let app1 := (Application.handle_events app input.events).1
  let size := u32_pair input.framebuffer_size
  let step := observe app1.size size
  let app2 := { app1 with size := step.1 }
  (app2,
    (if step.2 then [Call.reset size.1 size.2] else []) ++
      [Call.setViewRect (size.1 % 2 ^ 16) (size.2 % 2 ^ 16), Call.touch, Call.dbgTextClear,
        Call.dbgText 0 1, Call.dbgText 80 1, Call.dbgText 80 2, Call.dbgText 0 4, Call.frame])

/-- The loop of `executor` (src/main.rs lines 38-43): at the top of each
iteration the window's close flag is checked; if set the loop exits,
otherwise one `tick` runs.  Each iteration consumes one `TickInput`; if
the inputs are exhausted before the flag is set the loop would keep
running, modelled as `none` (divergence). -/
def executorLoop : Application → List TickInput → Option (Application × List Call)
  | app, [] => if app.window_shouldClose then some (app, []) else none
  | app, i :: rest =>
    if app.window_shouldClose then some (app, [])
    else (executorLoop (tick app i).1 rest).map fun p => (p.1, (tick app i).2 ++ p.2)

/-- `executor` (src/main.rs lines 23-47): make the context current and
enable key polling (window-side calls, not backend calls), set the debug
flags and view clear on the backend, run the loop, then shut the backend
down and return Ok. -/
def executor (app : Application) (inputs : List TickInput) :
    Option (Except Error Unit × List Call) :=
  (executorLoop app inputs).map fun p =>
    (Except.ok (), [Call.setDebug app.debug_flags, Call.setViewClear] ++ p.2 ++ [Call.shutdown])

/-- The window metadata main builds (src/main.rs lines 10-16): constants
TITLE, WIDTH = 1280, HEIGHT = 720, windowed mode, DebugFlags::TEXT. -/
def mainMetadata : WindowMetadata :=
  { title := "Test window"
    width := 1280
    height := 720
    mode := WindowMode.windowed
    debug_flags := DebugFlags.TEXT }

/-- `main` (src/main.rs lines 14-21): try_new, then init (each `?`
propagating the initialization error into `Error`), then run(executor).
Returns the program result and the full backend-call trace; `none` when
the run diverges or `get_platform_data` aborts. -/
def main_model (glfwOk windowOk bgfxOk : Bool) (handle : RawWindowHandle)
    (inputs : List TickInput) : Option (Except Error Unit × List Call) :=
  match Application.try_new glfwOk windowOk mainMetadata handle with
  | Except.error e => some (Except.error (Error.initialization e), [])
  | Except.ok app =>
    match Application.init app bgfxOk with
    | none => none
    | some (Except.error e, cs) => some (Except.error (Error.initialization e), cs)
    | some (Except.ok _, cs) =>
      (executor app inputs).map fun p => (p.1, cs ++ p.2)

/-- The `WindowHandle` struct of src/window.rs, reduced the same way as
`Application`; its stored size is an i32 pair. -/
structure WindowHandle where
  window_shouldClose : Bool
  size : Int × Int
  raw_handle : RawWindowHandle
  debug_flags : Nat
deriving DecidableEq, Repr

/-- `WindowHandle::try_new` (src/window.rs lines 64-85): same structure as
`Application::try_new`; the stored size is the creation size cast to i32. -/
def WindowHandle.try_new (glfwOk windowOk : Bool) (metadata : WindowMetadata)
    (handle : RawWindowHandle) : Except InitializationError WindowHandle :=
  match glfwOk with
  | false => Except.error InitializationError.glfw
  | true =>
    match windowOk with
    | false => Except.error InitializationError.window
    | true =>
      Except.ok
        { window_shouldClose := false
          size := ((metadata.width : Int), (metadata.height : Int))
          raw_handle := handle
          debug_flags := metadata.debug_flags }

/-- The `Init` struct built by `WindowHandle::init` (src/window.rs lines
87-93): resolution height = 0, width = 0, reset = VSYNC. -/
def WindowHandle.initParams (w : WindowHandle) : Option Init :=
  (get_platform_data w.raw_handle).map fun pd =>
    { Init.new with
        type_r := get_render_type
        resolution := { width := 0, height := 0, reset := ResetFlags.VSYNC }
        platform_data := pd }

/-- The resize-gate step inlined in `WindowHandle::run` (src/window.rs
lines 126-129), over the i32 sizes that file stores. -/
def WindowHandle.resizeStep (stored size : Int × Int) : (Int × Int) × Bool :=
  if stored ≠ size then (size, true) else (stored, false)

/-- `WindowHandle::handle_events` (src/window.rs lines 154-162), textually
identical to `Application::handle_events`. -/
def WindowHandle.handle_events (w : WindowHandle) (events : List WindowEvent) :
    WindowHandle × List WindowEvent :=
  (events.foldl
    (fun a e => if isEscapePress e then { a with window_shouldClose := true } else a)
    w,
   events)

/-- The loop body of `WindowHandle::run` (src/window.rs lines 117-147):
pump events, sample the framebuffer size (kept as i32), resize gate (the
reset call casts to u32), view rect (u16 casts), touch, debug text, one
frame submission. -/
def WindowHandle.tickBody (w : WindowHandle) (input : TickInput) : WindowHandle × List Call :=
  let w1 := (WindowHandle.handle_events w input.events).1
  let size := input.framebuffer_size
  let step := WindowHandle.resizeStep w1.size size
  let w2 := { w1 with size := step.1 }
  (w2,
    (if step.2 then [Call.reset (u32_of_i32 size.1) (u32_of_i32 size.2)] else []) ++
      [Call.setViewRect (u16_of_i32 size.1) (u16_of_i32 size.2), Call.touch, Call.dbgTextClear,
        Call.dbgText 0 1, Call.dbgText 80 1, Call.dbgText 80 2, Call.dbgText 0 4, Call.frame])

/-! ### Helper lemmas -/

/-- The event-pump fold only ever writes the close flag: it leaves every
other field alone and sets the flag exactly when it was already set or
some queued event is an escape key-press. -/
theorem pump_foldl (app : Application) (events : List WindowEvent) :
    events.foldl
        (fun a e => if isEscapePress e then { a with window_shouldClose := true } else a)
        app =
      { app with window_shouldClose := app.window_shouldClose || events.any isEscapePress } := by
  induction events generalizing app with
  | nil => simp
  | cons e rest ih =>
    by_cases he : isEscapePress e
    · simp [he, ih]
    · simp [he, ih]

/-- The same fact for the identical fold in window.rs. -/
theorem pump_foldl_w (w : WindowHandle) (events : List WindowEvent) :
    events.foldl
        (fun a e => if isEscapePress e then { a with window_shouldClose := true } else a)
        w =
      { w with window_shouldClose := w.window_shouldClose || events.any isEscapePress } := by
  induction events generalizing w with
  | nil => simp
  | cons e rest ih =>
    by_cases he : isEscapePress e
    · simp [he, ih]
    · simp [he, ih]

/-- The resize-gate step always leaves the stored size equal to the
sampled size. -/
theorem observe_fst (last cur : Nat × Nat) : (observe last cur).1 = cur := by
  unfold observe
  by_cases h : last ≠ cur
  · simp [h]
  · simp [h, not_not.mp h]

/-- The resize-gate step signals a reset exactly when the sizes differ. -/
theorem observe_snd (last cur : Nat × Nat) : (observe last cur).2 = true ↔ last ≠ cur := by
  unfold observe
  by_cases h : last ≠ cur
  · simp [h]
  · simp [h]

/-- Every call a tick emits is a loop call (reset, view rect, touch,
debug text or frame) — in particular never `initBackend` or `shutdown`. -/
theorem tick_calls_loop (app : Application) (input : TickInput) :
    ∀ c ∈ (tick app input).2, Call.isLoopCall c = true := by
  intro c hc
  unfold tick at hc
  rcases List.mem_append.mp hc with h | h
  · split at h
    · rcases List.mem_singleton.mp h with rfl
      rfl
    · exact absurd h (List.not_mem_nil c)
  · fin_cases h <;> rfl

/-- Every call emitted by a terminating run of the executor loop is a
loop call. -/
theorem executorLoop_calls_loop :
    ∀ (inputs : List TickInput) (app a : Application) (cs : List Call),
      executorLoop app inputs = some (a, cs) → ∀ c ∈ cs, Call.isLoopCall c = true := by
  intro inputs
  induction inputs with
  | nil =>
    intro app a cs h c hc
    unfold executorLoop at h
    split at h
    · cases h
      exact absurd hc (List.not_mem_nil c)
    · cases h
  | cons i rest ih =>
    intro app a cs h c hc
    unfold executorLoop at h
    split at h
    · cases h
      exact absurd hc (List.not_mem_nil c)
    · rcases Option.map_eq_some'.mp h with ⟨p, hp, hpe⟩
      cases hpe
      rcases List.mem_append.mp hc with h1 | h2
      · exact tick_calls_loop app i c h1
      · exact ih (tick app i).1 p.1 p.2 (by rw [← hp]) c h2

/-! ### Claim theorems -/

/-- C1: the resize gate's step updates the stored size and signals a
reset exactly when the sampled size differs from the stored one, and
leaves the state untouched (signalling nothing) when they are equal;
hence an A-to-B-to-A toggle signals two resets, an unchanged size never
signals one, and from the state the composed program is constructed in
(stored size 1280 by 720) the five samples (800,600), (800,600),
(1024,768), (1024,768), (800,600) signal the pattern T,F,T,F,T. -/
theorem c1_reset_gate_transition :
    (∀ last cur : Nat × Nat, last ≠ cur → observe last cur = (cur, true)) ∧
    (∀ last cur : Nat × Nat, last = cur → observe last cur = (last, false)) ∧
    (∀ a b : Nat × Nat, a ≠ b → observeSeq a [b, a] = [true, true]) ∧
    (∀ s : Nat × Nat, (observe s s).2 = false) ∧
    (Application.try_new true true mainMetadata (RawWindowHandle.xlib 1 2)).map
        (fun app =>
          observeSeq app.size [(800, 600), (800, 600), (1024, 768), (1024, 768), (800, 600)]) =
      Except.ok [true, false, true, false, true] := by
  refine ⟨?_, ?_, ?_, ?_, ?_⟩
  · intro last cur h
    simp [observe, h]
  · intro last cur h
    simp [observe, h]
  · intro a b hab
    have hba : b ≠ a := fun e => hab e.symm
    simp [observeSeq, observe, hab, hba]
  · intro s
    simp [observe]
  · rfl

/-- Closed witness for C1 at concrete sizes. -/
theorem c1_reset_gate_transition_witness :
    observe (800, 600) (1024, 768) = ((1024, 768), true) ∧
    observe (5, 5) (5, 5) = ((5, 5), false) ∧
    observeSeq (800, 600) [(1024, 768), (800, 600)] = [true, true] :=
  ⟨c1_reset_gate_transition.1 (800, 600) (1024, 768) (by decide),
    c1_reset_gate_transition.2.1 (5, 5) (5, 5) rfl,
    c1_reset_gate_transition.2.2.1 (800, 600) (1024, 768) (by decide)⟩

/-- C2 counterexample: construct the lifecycle with creation size 800 by
600; the very first observe with a sampled framebuffer size equal to the
creation size returns false, and the first tick issues zero resets — the
stored last-size starts as the creation-time size, not as "no previous
size". -/
theorem c2_first_observe_counterexample :
    (Application.try_new true true
          { title := "t", width := 800, height := 600, mode := WindowMode.windowed,
            debug_flags := 8 }
          (RawWindowHandle.xlib 1 2)).map
        (fun app => (observe app.size (800, 600)).2) =
      Except.ok false ∧
    (Application.try_new true true
          { title := "t", width := 800, height := 600, mode := WindowMode.windowed,
            debug_flags := 8 }
          (RawWindowHandle.xlib 1 2)).map
        (fun app =>
          (tick app { events := [], framebuffer_size := (800, 600) }).2.countP Call.isReset) =
      Except.ok 0 :=
  ⟨rfl, rfl⟩

/-- C2 amended: the stored last-size is initialized to the creation-time
window size (not to "no previous size"), so the first observe after
construction returns true exactly when the sampled framebuffer size
differs from the creation size. -/
theorem c2_first_observe_amended :
    ∀ (metadata : WindowMetadata) (handle : RawWindowHandle) (cur : Nat × Nat),
      ∃ app, Application.try_new true true metadata handle = Except.ok app ∧
        app.size = (metadata.width, metadata.height) ∧
        ((observe app.size cur).2 = true ↔ cur ≠ (metadata.width, metadata.height)) := by
  intro m h cur
  refine ⟨_, rfl, rfl, ?_⟩
  rw [observe_snd]
  exact ne_comm

/-- C3: the platform-handle resolver (a pure function in the embedding)
realizes exactly the spec's table: Xlib maps the window id to the native
window handle and the display pointer to the native display type;
Wayland maps the display pointer to the window handle and the surface
pointer to the display type; macOS and Win32 map their single pointer to
the window handle and leave the display type at its null initial value. -/
theorem c3_platform_mapping :
    (∀ window display : Nat,
        get_platform_data (RawWindowHandle.xlib window display) =
          some { nwh := window, ndt := display }) ∧
    (∀ surface display : Nat,
        get_platform_data (RawWindowHandle.wayland surface display) =
          some { nwh := display, ndt := surface }) ∧
    (∀ ns_window : Nat,
        get_platform_data (RawWindowHandle.macOS ns_window) =
          some { nwh := ns_window, ndt := PlatformData.new.ndt }) ∧
    (∀ hwnd : Nat,
        get_platform_data (RawWindowHandle.win32 hwnd) =
          some { nwh := hwnd, ndt := PlatformData.new.ndt }) :=
  ⟨fun _ _ => rfl, fun _ _ => rfl, fun _ => rfl, fun _ => rfl⟩

/-- C4 counterexample: at the concrete unsupported handle Xcb(1, 2) the
resolver aborts the process (modelled as no result at all) instead of
returning a typed failure, and `init` on such a handle aborts before any
backend call; the error type offers no UnsupportedPlatform value that
could have been returned. -/
theorem c4_unsupported_counterexample :
    get_platform_data (RawWindowHandle.xcb 1 2) = none ∧
    Application.init
        { window_shouldClose := false, size := (800, 600),
          raw_handle := RawWindowHandle.xcb 1 2, debug_flags := 8 }
        true = none :=
  ⟨rfl, rfl⟩

/-- C4 amended: every handle variant outside the four supported kinds
makes resolution abort (a Rust panic, modelled as `none`) rather than
return a typed result, and the program's initialization-error type
contains only the Glfw, Window and Bgfx values — no UnsupportedPlatform
exists to be returned. -/
theorem c4_unsupported_amended :
    (∀ handle : RawWindowHandle,
        get_platform_data handle = none ↔ handle.isSupported = false) ∧
    (∀ e : InitializationError,
        e = InitializationError.glfw ∨ e = InitializationError.window ∨
          e = InitializationError.bgfx) := by
  constructor
  · intro h
    cases h <;> simp [get_platform_data, RawWindowHandle.isSupported]
  · intro e
    cases e <;> simp

/-- C5 counterexample: for the lifecycle main constructs (stored size
1280 by 720), `Application::init` builds its backend parameters with
resolution width 720 and height 1280 — the stored size with the
components swapped — not with width 0 and height 0. -/
theorem c5_resolution_counterexample :
    (Application.initParams
          { window_shouldClose := false, size := (1280, 720),
            raw_handle := RawWindowHandle.xlib 1 2, debug_flags := DebugFlags.TEXT }).map
        (fun p => (p.resolution.width, p.resolution.height)) =
      some (720, 1280) ∧
    ((720 : Nat), (1280 : Nat)) ≠ ((0 : Nat), (0 : Nat)) :=
  ⟨rfl, by decide⟩

/-- C5 amended: `WindowHandle::init` builds its backend parameters with
resolution width 0, height 0 and the vertical-sync reset flag, but
`Application::init` — the lifecycle main actually runs — builds them
with resolution height set to the stored width, width set to the stored
height, and the vertical-sync flag; in both, the parameters carry the
vertical-sync flag into the single backend start call. -/
theorem c5_init_params_amended :
    (∀ w : WindowHandle, ∀ p ∈ WindowHandle.initParams w,
        p.resolution.width = 0 ∧ p.resolution.height = 0 ∧
          p.resolution.reset = ResetFlags.VSYNC) ∧
    (∀ app : Application, ∀ p ∈ Application.initParams app,
        p.resolution.width = app.size.2 ∧ p.resolution.height = app.size.1 ∧
          p.resolution.reset = ResetFlags.VSYNC) ∧
    (∀ (app : Application) (bgfxOk : Bool) (r : Except InitializationError Unit)
        (cs : List Call),
        Application.init app bgfxOk = some (r, cs) →
          ∃ p, cs = [Call.initBackend p] ∧ p.resolution.reset = ResetFlags.VSYNC) := by
  refine ⟨?_, ?_, ?_⟩
  · intro w p hp
    unfold WindowHandle.initParams at hp
    rcases Option.map_eq_some'.mp (Option.mem_def.mp hp) with ⟨pd, _, rfl⟩
    exact ⟨rfl, rfl, rfl⟩
  · intro app p hp
    unfold Application.initParams at hp
    rcases Option.map_eq_some'.mp (Option.mem_def.mp hp) with ⟨pd, _, rfl⟩
    exact ⟨rfl, rfl, rfl⟩
  · intro app bgfxOk r cs h
    unfold Application.init at h
    rcases Option.map_eq_some'.mp h with ⟨params, hparams, he⟩
    unfold Application.initParams at hparams
    rcases Option.map_eq_some'.mp hparams with ⟨pd, _, rfl⟩
    cases bgfxOk <;> cases he <;> exact ⟨_, rfl, rfl⟩

/-- Closed witness for C5 at a concrete window handle and a concrete
application. -/
theorem c5_init_params_amended_witness :
    (({ type_r := RendererType.vulkan,
          resolution := { width := 0, height := 0, reset := ResetFlags.VSYNC },
          platform_data := { nwh := 1, ndt := 2 } } : Init).resolution.width = 0 ∧
        ({ type_r := RendererType.vulkan,
            resolution := { width := 0, height := 0, reset := ResetFlags.VSYNC },
            platform_data := { nwh := 1, ndt := 2 } } : Init).resolution.height = 0 ∧
        ({ type_r := RendererType.vulkan,
            resolution := { width := 0, height := 0, reset := ResetFlags.VSYNC },
            platform_data := { nwh := 1, ndt := 2 } } : Init).resolution.reset =
          ResetFlags.VSYNC) ∧
    (∃ p, [Call.initBackend
            { type_r := RendererType.vulkan,
              resolution := { width := 600, height := 800, reset := ResetFlags.VSYNC },
              platform_data := { nwh := 1, ndt := 2 } }] = [Call.initBackend p] ∧
        p.resolution.reset = ResetFlags.VSYNC) :=
  ⟨c5_init_params_amended.1
      { window_shouldClose := false, size := (3, 4),
        raw_handle := RawWindowHandle.xlib 1 2, debug_flags := 8 }
      _ (Option.mem_def.mpr rfl),
    c5_init_params_amended.2.2
      { window_shouldClose := false, size := (800, 600),
        raw_handle := RawWindowHandle.xlib 1 2, debug_flags := 8 }
      false (Except.error InitializationError.bgfx) _ rfl⟩

/-- C7: every tick of the per-frame loop submits exactly one frame; and
the lifecycle main constructs (1280 by 720, windowed), ticked once with
an unchanged framebuffer size and no queued events, issues zero resets
and exactly one frame submission. -/
theorem c7_one_frame_per_tick :
    (∀ (app : Application) (input : TickInput),
        (tick app input).2.countP Call.isFrame = 1) ∧
    (Application.try_new true true mainMetadata (RawWindowHandle.xlib 1 2)).map
        (fun app =>
          ((tick app { events := [], framebuffer_size := (1280, 720) }).2.countP Call.isReset,
            (tick app { events := [], framebuffer_size := (1280, 720) }).2.countP
              Call.isFrame)) =
      Except.ok (0, 1) := by
  constructor
  · intro app input
    simp only [tick]
    rcases hstep :
        observe (Application.handle_events app input.events).1.size
          (u32_pair input.framebuffer_size) with ⟨ns, bb⟩
    cases bb <;> rfl
  · rfl

/-- C8: the event pump sets the close-requested flag, starting from
unset, exactly when the queue holds an escape key-press; it observes
(logs) every queued event, changes nothing but the flag, and pumping an
empty queue changes nothing at all. -/
theorem c8_event_pump :
    (∀ (app : Application) (events : List WindowEvent),
        app.window_shouldClose = false →
          ((Application.handle_events app events).1.window_shouldClose = true ↔
            ∃ e ∈ events, isEscapePress e = true)) ∧
    (∀ (app : Application) (events : List WindowEvent),
        (Application.handle_events app events).2 = events) ∧
    (∀ (app : Application) (events : List WindowEvent),
        (Application.handle_events app events).1.size = app.size ∧
          (Application.handle_events app events).1.raw_handle = app.raw_handle ∧
          (Application.handle_events app events).1.debug_flags = app.debug_flags) ∧
    (∀ app : Application, Application.handle_events app [] = (app, [])) := by
  refine ⟨?_, ?_, ?_, ?_⟩
  · intro app events h
    unfold Application.handle_events
    rw [pump_foldl]
    simp [h, List.any_eq_true]
  · intro app events
    rfl
  · intro app events
    unfold Application.handle_events
    rw [pump_foldl]
    exact ⟨rfl, rfl, rfl⟩
  · intro app
    rfl

/-- Closed witness for C8: a queue holding one escape key-press, pumped
from an unset flag. -/
theorem c8_event_pump_witness :
    (Application.handle_events
          { window_shouldClose := false, size := (1, 1),
            raw_handle := RawWindowHandle.xlib 1 2, debug_flags := 8 }
          [WindowEvent.key Key.escape 9 Action.press 0]).1.window_shouldClose = true ↔
      ∃ e ∈ [WindowEvent.key Key.escape 9 Action.press 0], isEscapePress e = true :=
  c8_event_pump.1
    { window_shouldClose := false, size := (1, 1),
      raw_handle := RawWindowHandle.xlib 1 2, debug_flags := 8 }
    [WindowEvent.key Key.escape 9 Action.press 0] rfl

/-- C9: `Application::init` returns the Bgfx initialization error exactly
when the backend start call fails, and Ok exactly when it succeeds. -/
theorem c9_backend_init_result :
    ∀ (app : Application) (bgfxOk : Bool) (r : Except InitializationError Unit)
      (cs : List Call),
      Application.init app bgfxOk = some (r, cs) →
        ((r = Except.ok () ↔ bgfxOk = true) ∧
          (r = Except.error InitializationError.bgfx ↔ bgfxOk = false)) := by
  intro app bgfxOk r cs h
  unfold Application.init at h
  rcases Option.map_eq_some'.mp h with ⟨params, _, he⟩
  cases bgfxOk <;> injection he with h1 h2 <;> subst h1 <;> simp

/-- Closed witness for C9: a failing backend start on a concrete
application. -/
theorem c9_backend_init_result_witness :
    ((Except.error InitializationError.bgfx : Except InitializationError Unit) =
        Except.ok () ↔ false = true) ∧
      ((Except.error InitializationError.bgfx : Except InitializationError Unit) =
          Except.error InitializationError.bgfx ↔ false = false) :=
  c9_backend_init_result
    { window_shouldClose := false, size := (800, 600),
      raw_handle := RawWindowHandle.xlib 1 2, debug_flags := 8 }
    false (Except.error InitializationError.bgfx)
    [Call.initBackend
      { type_r := RendererType.vulkan,
        resolution := { width := 600, height := 800, reset := ResetFlags.VSYNC },
        platform_data := { nwh := 1, ndt := 2 } }]
    rfl

/-- The window.rs resize step always leaves the stored size equal to the
sampled size. -/
theorem resizeStep_fst (stored size : Int × Int) :
    (WindowHandle.resizeStep stored size).1 = size := by
  unfold WindowHandle.resizeStep
  by_cases h : stored ≠ size
  · simp [h]
  · simp [h, not_not.mp h]

/-- The window.rs resize step signals a reset exactly when the sizes
differ. -/
theorem resizeStep_snd (stored size : Int × Int) :
    (WindowHandle.resizeStep stored size).2 = true ↔ stored ≠ size := by
  unfold WindowHandle.resizeStep
  by_cases h : stored ≠ size
  · simp [h]
  · simp [h]

/-- C10: the two per-frame loop bodies in the source implement the same
resize-gating step.  The step inlined in `WindowHandle::run` and the step
inlined in `tick` (acting on the u32-cast framebuffer size) each signal a
reset exactly when the stored size differs from the sampled one, each end
with the stored size equal to the sampled size, and each leave the stored
size untouched when no reset is signalled; and both whole loop bodies end
their tick with the stored size equal to the sampled framebuffer size and
emit exactly one reset call when the sizes differed, none otherwise. -/
theorem c10_loop_bodies_agree :
    (∀ stored size : Int × Int,
        ((WindowHandle.resizeStep stored size).2 = true ↔ stored ≠ size) ∧
          (WindowHandle.resizeStep stored size).1 = size ∧
          ((WindowHandle.resizeStep stored size).2 = false →
            (WindowHandle.resizeStep stored size).1 = stored)) ∧
    (∀ (stored : Nat × Nat) (fb : Int × Int),
        ((observe stored (u32_pair fb)).2 = true ↔ stored ≠ u32_pair fb) ∧
          (observe stored (u32_pair fb)).1 = u32_pair fb ∧
          ((observe stored (u32_pair fb)).2 = false →
            (observe stored (u32_pair fb)).1 = stored)) ∧
    (∀ (w : WindowHandle) (input : TickInput),
        (WindowHandle.tickBody w input).1.size = input.framebuffer_size ∧
          (WindowHandle.tickBody w input).2.countP Call.isReset =
            (if w.size ≠ input.framebuffer_size then 1 else 0)) ∧
    (∀ (app : Application) (input : TickInput),
        (tick app input).1.size = u32_pair input.framebuffer_size ∧
          (tick app input).2.countP Call.isReset =
            (if app.size ≠ u32_pair input.framebuffer_size then 1 else 0)) := by
  refine ⟨?_, ?_, ?_, ?_⟩
  · intro stored size
    refine ⟨resizeStep_snd stored size, resizeStep_fst stored size, fun hf => ?_⟩
    have h : stored = size := by
      by_contra hne
      rw [(resizeStep_snd stored size).mpr hne] at hf
      simp at hf
    exact (resizeStep_fst stored size).trans h.symm
  · intro stored fb
    refine ⟨observe_snd stored (u32_pair fb), observe_fst stored (u32_pair fb), fun hf => ?_⟩
    have h : stored = u32_pair fb := by
      by_contra hne
      rw [(observe_snd stored (u32_pair fb)).mpr hne] at hf
      simp at hf
    exact (observe_fst stored (u32_pair fb)).trans h.symm
  · intro w input
    unfold WindowHandle.tickBody WindowHandle.handle_events
    rw [pump_foldl_w]
    constructor
    · exact resizeStep_fst _ _
    · by_cases h : w.size ≠ input.framebuffer_size
      · simp [WindowHandle.resizeStep, h, List.countP_cons, List.countP_append, Call.isReset]
      · simp [WindowHandle.resizeStep, h, List.countP_cons, List.countP_append, Call.isReset]
  · intro app input
    unfold tick Application.handle_events
    rw [pump_foldl]
    constructor
    · exact observe_fst _ _
    · by_cases h : app.size ≠ u32_pair input.framebuffer_size
      · simp [observe, h, List.countP_cons, List.countP_append, Call.isReset]
      · simp [observe, h, List.countP_cons, List.countP_append, Call.isReset]

/-- Closed witness for C10: both steps at an unchanged concrete size
leave the stored size in place. -/
theorem c10_loop_bodies_agree_witness :
    (WindowHandle.resizeStep (3, 4) (3, 4)).1 = (3, 4) ∧
      (observe (5, 6) (u32_pair (5, 6))).1 = (5, 6) :=
  ⟨(c10_loop_bodies_agree.1 (3, 4) (3, 4)).2.2 rfl,
    (c10_loop_bodies_agree.2.1 (5, 6) (5, 6)).2.2 (by decide)⟩

/-- The application state main holds right after a successful
construction: close flag unset, stored size 1280 by 720, main's debug
flags. -/
def mainApp (handle : RawWindowHandle) : Application :=
  { window_shouldClose := false
    size := (1280, 720)
    raw_handle := handle
    debug_flags := DebugFlags.TEXT }

/-- Unfolding of `main_model` when both external construction calls
succeed. -/
theorem main_model_ok (b : Bool) (handle : RawWindowHandle) (inputs : List TickInput) :
    main_model true true b handle inputs =
      (match Application.init (mainApp handle) b with
        | none => none
        | some (Except.error e, cs) => some (Except.error (Error.initialization e), cs)
        | some (Except.ok _, cs) =>
          (executor (mainApp handle) inputs).map fun p => (p.1, cs ++ p.2)) := rfl

/-- C6: in every terminating modelled execution of the composed program,
no backend reset or frame submission occurs unless the backend init call
came first and succeeded; shutdown occurs exactly when construction and
init succeeded, and then only as the very last backend call (hence at
most once, after the run loop exited); and an init failure surfaces as
an error result with no call after the failed init. -/
theorem c6_call_ordering :
    ∀ (glfwOk windowOk bgfxOk : Bool) (handle : RawWindowHandle)
      (inputs : List TickInput) (r : Except Error Unit) (tr : List Call),
      main_model glfwOk windowOk bgfxOk handle inputs = some (r, tr) →
        ((((∃ x y, Call.reset x y ∈ tr) ∨ Call.frame ∈ tr) →
            bgfxOk = true ∧ ∃ p rest, tr = Call.initBackend p :: rest) ∧
          (Call.shutdown ∈ tr ↔ (glfwOk = true ∧ windowOk = true ∧ bgfxOk = true)) ∧
          (Call.shutdown ∈ tr → ∃ pre, tr = pre ++ [Call.shutdown] ∧ Call.shutdown ∉ pre) ∧
          (bgfxOk = false → ∃ e, r = Except.error e)) := by
  intro g w b handle inputs r tr h
  cases g with
  | false =>
    have hm : main_model false w b handle inputs =
        some (Except.error (Error.initialization InitializationError.glfw), []) := rfl
    rw [hm] at h
    simp only [Option.some.injEq, Prod.mk.injEq] at h
    obtain ⟨rfl, rfl⟩ := h
    refine ⟨fun hmem => ?_, by simp, fun hmem => ?_, fun _ => ⟨_, rfl⟩⟩
    · rcases hmem with ⟨x, y, hx⟩ | hx <;> simp at hx
    · simp at hmem
  | true =>
    cases w with
    | false =>
      have hm : main_model true false b handle inputs =
          some (Except.error (Error.initialization InitializationError.window), []) := rfl
      rw [hm] at h
      simp only [Option.some.injEq, Prod.mk.injEq] at h
      obtain ⟨rfl, rfl⟩ := h
      refine ⟨fun hmem => ?_, by simp, fun hmem => ?_, fun _ => ⟨_, rfl⟩⟩
      · rcases hmem with ⟨x, y, hx⟩ | hx <;> simp at hx
      · simp at hmem
    | true =>
      rw [main_model_ok] at h
      cases b with
      | false =>
        cases hpd : get_platform_data handle with
        | none =>
          rw [show Application.init (mainApp handle) false = none from by
                simp only [Application.init, Application.initParams, mainApp]
                rw [hpd]
                rfl] at h
          simp at h
        | some pd =>
          rw [show Application.init (mainApp handle) false =
                some (Except.error InitializationError.bgfx,
                  [Call.initBackend
                    { type_r := get_render_type,
                      resolution := { width := 720, height := 1280, reset := ResetFlags.VSYNC },
                      platform_data := pd }]) from by
                simp only [Application.init, Application.initParams, mainApp]
                rw [hpd]
                rfl] at h
          simp only [Option.some.injEq, Prod.mk.injEq] at h
          obtain ⟨rfl, rfl⟩ := h
          refine ⟨fun hmem => ?_, by simp, fun hmem => ?_, fun _ => ⟨_, rfl⟩⟩
          · rcases hmem with ⟨x, y, hx⟩ | hx <;> simp at hx
          · simp at hmem
      | true =>
        cases hpd : get_platform_data handle with
        | none =>
          rw [show Application.init (mainApp handle) true = none from by
                simp only [Application.init, Application.initParams, mainApp]
                rw [hpd]
                rfl] at h
          simp at h
        | some pd =>
          rw [show Application.init (mainApp handle) true =
                some (Except.ok (),
                  [Call.initBackend
                    { type_r := get_render_type,
                      resolution := { width := 720, height := 1280, reset := ResetFlags.VSYNC },
                      platform_data := pd }]) from by
                simp only [Application.init, Application.initParams, mainApp]
                rw [hpd]
                rfl] at h
          unfold executor at h
          cases hloop : executorLoop (mainApp handle) inputs with
          | none =>
            rw [hloop] at h
            simp at h
          | some q =>
            rw [hloop] at h
            simp only [Option.map_some', Option.some.injEq, Prod.mk.injEq] at h
            obtain ⟨rfl, rfl⟩ := h
            have hq := executorLoop_calls_loop inputs (mainApp handle) q.1 q.2 (by rw [hloop])
            have hsd : Call.shutdown ∉ q.2 := fun hm => by
              simpa [Call.isLoopCall] using hq Call.shutdown hm
            refine ⟨fun _ =>
                ⟨rfl,
                  { type_r := get_render_type,
                    resolution := { width := 720, height := 1280, reset := ResetFlags.VSYNC },
                    platform_data := pd },
                  [Call.setDebug (mainApp handle).debug_flags, Call.setViewClear] ++ q.2 ++
                    [Call.shutdown],
                  by simp⟩,
              ?_, fun _ => ?_, fun hb => by simp at hb⟩
            · constructor
              · intro _
                exact ⟨rfl, rfl, rfl⟩
              · intro _
                simp
            · refine ⟨Call.initBackend
                  { type_r := get_render_type,
                    resolution := { width := 720, height := 1280, reset := ResetFlags.VSYNC },
                    platform_data := pd } ::
                  Call.setDebug (mainApp handle).debug_flags :: Call.setViewClear :: q.2,
                ?_, ?_⟩
              · simp
              · intro hmem
                simp only [List.mem_cons] at hmem
                rcases hmem with h1 | h1 | h1 | h1
                · simp at h1
                · simp at h1
                · simp at h1
                · exact hsd h1

/-- Closed witness for C6: the concrete run that succeeds construction
and init, then ticks once on a queue holding an escape press with
framebuffer size 800 by 600 and exits. -/
theorem c6_call_ordering_witness :
    Call.shutdown ∈
        [Call.initBackend
            { type_r := RendererType.vulkan,
              resolution := { width := 720, height := 1280, reset := ResetFlags.VSYNC },
              platform_data := { nwh := 1, ndt := 2 } },
          Call.setDebug DebugFlags.TEXT, Call.setViewClear, Call.reset 800 600,
          Call.setViewRect 800 600, Call.touch, Call.dbgTextClear, Call.dbgText 0 1,
          Call.dbgText 80 1, Call.dbgText 80 2, Call.dbgText 0 4, Call.frame,
          Call.shutdown] ↔
      (true = true ∧ true = true ∧ true = true) :=
  (c6_call_ordering true true true (RawWindowHandle.xlib 1 2)
      [{ events := [WindowEvent.key Key.escape 9 Action.press 0],
         framebuffer_size := (800, 600) }]
      (Except.ok ())
      [Call.initBackend
          { type_r := RendererType.vulkan,
            resolution := { width := 720, height := 1280, reset := ResetFlags.VSYNC },
            platform_data := { nwh := 1, ndt := 2 } },
        Call.setDebug DebugFlags.TEXT, Call.setViewClear, Call.reset 800 600,
        Call.setViewRect 800 600, Call.touch, Call.dbgTextClear, Call.dbgText 0 1,
        Call.dbgText 80 1, Call.dbgText 80 2, Call.dbgText 0 4, Call.frame,
        Call.shutdown] rfl).2.1

end BgfxTest
